import Mathlib

/-!
Shallow embedding of ZMK's behavior-identity and remote-keymap-mutation
subsystem (app/src/behavior.c and app/src/studio/keymap_subsystem.c),
with theorems checking the natural-language specification against it.

Machine integers are modelled as `Nat` (all values involved stay far below
their C widths; no arithmetic here overflows), and C `int` error returns as
`Int` with the usual errno constants. Build-time configuration macros and
constants from headers that are not part of the two source files
(ZMK_KEYMAP_LEN, ZMK_KEYMAP_LAYERS_LEN, the HID usage constants) are carried
in an explicit configuration record.
-/

namespace ZMK

/-- errno value EINVAL, as used by the sources via `-EINVAL`. -/
def EINVAL : Int := 22

/-- errno value ENODEV, as used by the sources via `-ENODEV`. -/
def ENODEV : Int := 19

/-- errno value ENOTSUP, as used by the sources via `-ENOTSUP`. -/
def ENOTSUP : Int := 35

/-- errno value EIO, standing for a persistence-layer failure code. -/
def EIOFAIL : Int := 5

/-- Modelled from the spec: build-time configuration values that the two
source files take from headers outside the repository slice. `keymapLen` is
ZMK_KEYMAP_LEN (number of key positions per layer, see the binding loops in
keymap_subsystem.c), `keymapLayersLen` is ZMK_KEYMAP_LAYERS_LEN (the fixed
layer count), `nkroMax` is ZMK_HID_KEYBOARD_NKRO_MAX_USAGE, `leftControl`
and `rightGui` bound the contiguous modifier-key usage-id range, and
`consumerBasic` is CONFIG_ZMK_HID_CONSUMER_REPORT_USAGES_BASIC. -/
structure Cfg where
  keymapLen : Nat
  keymapLayersLen : Nat
  nkroMax : Nat
  leftControl : Nat
  rightGui : Nat
  consumerBasic : Bool

/-- Modelled from the spec: the HID "Key" usage page selector (HID_USAGE_KEY). -/
def HID_USAGE_KEY : Nat := 0x07

/-- Modelled from the spec: the HID "Consumer" usage page selector (HID_USAGE_CONSUMER). -/
def HID_USAGE_CONSUMER : Nat := 0x0C

/-- Embeds `validate_hid_usage` (behavior.c:63). Note the source's Key-page
condition is `usage_id > NKRO_MAX && usage_id < LEFT_CONTROL && usage_id > RIGHT_GUI`,
kept verbatim here. -/
def validate_hid_usage (c : Cfg) (usage_page usage_id : Nat) : Int :=
  if usage_page = HID_USAGE_KEY then
    if usage_id = 0 ∨ (usage_id > c.nkroMax ∧ usage_id < c.leftControl ∧ usage_id > c.rightGui)
    then -EINVAL else 0
  else if usage_page = HID_USAGE_CONSUMER then
    if usage_id > (if c.consumerBasic then 0xFF else 0xFFF) then -EINVAL else 0
  else -EINVAL

/-- Modelled from the spec: the spec's HID-usage validation rule for claim C1.
Page "Key": invalid iff `usageId = 0` or (`usageId` exceeds the NKRO maximum
while also falling outside the contiguous modifier range LEFT_CONTROL..RIGHT_GUI);
page "Consumer": invalid iff `usageId` exceeds the build-configured ceiling;
any other page invalid. -/
def spec_hid_usage_ok (c : Cfg) (usage_page usage_id : Nat) : Bool :=
  if usage_page = HID_USAGE_KEY then
    decide (¬(usage_id = 0 ∨
      (usage_id > c.nkroMax ∧ ¬(c.leftControl ≤ usage_id ∧ usage_id ≤ c.rightGui))))
  else if usage_page = HID_USAGE_CONSUMER then
    decide (usage_id ≤ (if c.consumerBasic then 0xFF else 0xFFF))
  else false

/-- The tag of `struct behavior_parameter_value_metadata`'s `type` field. -/
inductive ParamValueKind where
  | nil
  | hid_usage
  | layer_index
  | value
  | range
deriving DecidableEq, Repr

/-- Embeds `struct behavior_parameter_value_metadata`: a tag plus the union
payload fields that the validator reads (`value`, `range.min`, `range.max`). -/
structure ParamValueMeta where
  vtype : ParamValueKind
  value : Nat
  rmin : Nat
  rmax : Nat
deriving DecidableEq, Repr

/-- Modelled from the spec: `ZMK_HID_USAGE_PAGE` — the high half of the packed
32-bit usage value. -/
def ZMK_HID_USAGE_PAGE (param : Nat) : Nat := param / 65536

/-- Modelled from the spec: `ZMK_HID_USAGE_ID` — the low half of the packed
32-bit usage value. -/
def ZMK_HID_USAGE_ID (param : Nat) : Nat := param % 65536

/-- The per-spec match test of the `switch` in `zmk_behavior_validate_param_values`
(behavior.c:97-129). Note the source compares a LAYER_INDEX parameter against
ZMK_KEYMAP_LEN (key-position count), kept verbatim here. -/
def param_value_match (c : Cfg) (m : ParamValueMeta) (param : Nat) : Bool :=
  match m.vtype with
  | .nil => decide (param = 0)
  | .hid_usage =>
      decide (validate_hid_usage c (ZMK_HID_USAGE_PAGE param) (ZMK_HID_USAGE_ID param) ≥ 0)
  | .layer_index => decide (param < c.keymapLen)
  | .value => decide (param = m.value)
  | .range => decide (m.rmin ≤ param ∧ param ≤ m.rmax)

/-- The `for` loop of `zmk_behavior_validate_param_values`: first matching
spec wins; `-ENOTSUP` when none matches. -/
def param_values_loop (c : Cfg) (param : Nat) : List ParamValueMeta → Int
  | [] => -ENOTSUP
  | m :: rest => if param_value_match c m param then 0 else param_values_loop c param rest

/-- Embeds `zmk_behavior_validate_param_values` (behavior.c:86). -/
def zmk_behavior_validate_param_values (c : Cfg) (values : List ParamValueMeta)
    (param : Nat) : Int :=
  if values.length = 0 then -ENODEV
  else param_values_loop c param values

/-- Embeds `struct behavior_parameter_metadata_set`. -/
structure MetadataSet where
  param1_values : List ParamValueMeta
  param2_values : List ParamValueMeta
deriving DecidableEq, Repr

/-- Embeds `struct behavior_parameter_metadata`. -/
structure ParameterMetadata where
  sets : List MetadataSet
deriving DecidableEq, Repr

/-- The per-set acceptance test of the loop in `zmk_behavior_validate_params_metadata`
(behavior.c:149-161). -/
def metadata_set_passes (c : Cfg) (s : MetadataSet) (p1 p2 : Nat) : Bool :=
  let r1 := zmk_behavior_validate_param_values c s.param1_values p1
  let r2 := zmk_behavior_validate_param_values c s.param2_values p2
  decide ((r1 ≥ 0 ∨ (r1 = -ENODEV ∧ p1 = 0)) ∧ (r2 ≥ 0 ∨ (r2 = -ENODEV ∧ p2 = 0)))

/-- Embeds `zmk_behavior_validate_params_metadata` (behavior.c:139). A NULL
`metadata` pointer is `none`. -/
def zmk_behavior_validate_params_metadata (c : Cfg) (metadata : Option ParameterMetadata)
    (p1 p2 : Nat) : Int :=
  match metadata with
  | none => if p1 = 0 ∧ p2 = 0 then 0 else -ENODEV
  | some md =>
    if md.sets.length = 0 then
      if p1 = 0 ∧ p2 = 0 then 0 else -ENODEV
    else if md.sets.any (fun s => metadata_set_passes c s p1 p2) then 0
    else -EINVAL

/-- Embeds `struct zmk_behavior_binding` as the validator sees it: a behavior
name (the resolved `behavior_dev`) plus the two parameters. -/
structure BehaviorBinding where
  behavior_dev : String
  param1 : Nat
  param2 : Nat
deriving DecidableEq, Repr

/-- The all-zero binding produced by `memset(..., 0, sizeof(struct zmk_behavior_binding))`. -/
def zeroBinding : BehaviorBinding := ⟨"", 0, 0⟩

/-- Modelled from the spec: the Behavior Registry's collaborator surface as
`zmk_behavior_validate_binding` consumes it. `lookup` tells whether
`zmk_behavior_get_binding` finds a ready device for a name, and `getMetadata`
is `behavior_get_parameter_metadata`, returning the C pair of an `int` result
(negative on failure) and the filled metadata. -/
structure Registry where
  lookup : String → Bool
  getMetadata : String → Int × ParameterMetadata

/-- Embeds `zmk_behavior_validate_binding` (behavior.c:168), with
CONFIG_ZMK_BEHAVIOR_METADATA enabled. -/
def zmk_behavior_validate_binding (c : Cfg) (reg : Registry) (binding : BehaviorBinding) : Int :=
  if reg.lookup binding.behavior_dev then
    let mret := reg.getMetadata binding.behavior_dev
    if mret.1 < 0 then mret.1
    else zmk_behavior_validate_params_metadata c (some mret.2) binding.param1 binding.param2
  else -ENODEV

/-- Embeds one entry of the `zmk_behavior_local_id_map` linker section:
a device name, its readiness, and the mutable `local_id` field
(0 meaning "unassigned"). -/
structure LocalIdItem where
  name : String
  ready : Bool
  local_id : Nat
deriving DecidableEq, Repr

/-- A default item, used only as the `List.getD` fallback in statements whose
index is in range. -/
def dItem : LocalIdItem := ⟨"", false, 0⟩

/-- Embeds `zmk_behavior_find_behavior_name_from_local_id` (behavior.c:206):
first ready table entry carrying the id wins. -/
def zmk_behavior_find_behavior_name_from_local_id :
    List LocalIdItem → Nat → Option String
  | [], _ => none
  | it :: rest, id =>
    if it.ready = true ∧ it.local_id = id then some it.name
    else zmk_behavior_find_behavior_name_from_local_id rest id

/-- Embeds the `STRUCT_SECTION_FOREACH` loop of `behavior_handle_commit`
(behavior.c:272): `largest` is `largest_local_id`; every item still holding
local id 0 receives `++largest_local_id`. Returns the final counter and the
updated table; the `settings_save_one` side effect carries no information the
claims consult. -/
def behavior_handle_commit (largest : Nat) : List LocalIdItem → Nat × List LocalIdItem
  | [] => (largest, [])
  | it :: rest =>
    if it.local_id ≠ 0 then
      let r := behavior_handle_commit largest rest
      (r.1, it :: r.2)
    else
      let r := behavior_handle_commit (largest + 1) rest
      (r.1, { it with local_id := largest + 1 } :: r.2)

/-- A keymap in the external store: layer index and position index to binding. -/
def Keymap : Type := Nat → Nat → BehaviorBinding

/-- Modelled from the spec: the mutable state shared by the keymap RPC
subsystem's collaborators. `keymap` and `keymapDirty` are the KeymapStore,
`selectedLayout`/`savedLayout` the PhysicalLayoutStore's selection and its
persisted value (their unsaved-selection check compares the two), and `notifs`
records the payloads of every `unsaved_changes_status_changed` notification
raised, in order. -/
structure St where
  keymap : Keymap
  keymapDirty : Bool
  selectedLayout : Nat
  savedLayout : Nat
  notifs : List Bool

/-- Modelled from the spec: the external collaborator outcomes a single RPC
call can observe. `selectOk` is whether `zmk_physical_layouts_select` accepts
an index; `saveLayoutOk`/`saveKeymapOk` whether the two persistence steps of
`save_changes` succeed; `posMap old new` is
`zmk_physical_layouts_get_position_map`, `none` standing for a negative
return. The identity table, registry and configuration ride along. -/
structure Env where
  cfg : Cfg
  items : List LocalIdItem
  reg : Registry
  selectOk : Nat → Bool
  saveLayoutOk : Bool
  saveKeymapOk : Bool
  posMap : Nat → Nat → Option (List Nat)

/-- Modelled from the spec: KeymapStore `getBindingAt` —
`zmk_keymap_get_layer_binding_at_idx` yields NULL outside the configured
layer/position ranges. -/
def zmk_keymap_get_layer_binding_at_idx (c : Cfg) (st : St) (l pos : Nat) :
    Option BehaviorBinding :=
  if l < c.keymapLayersLen ∧ pos < c.keymapLen then some (st.keymap l pos) else none

/-- Modelled from the spec: KeymapStore `setBindingAt` —
`zmk_keymap_set_layer_binding_at_idx` rejects an out-of-range location with
`-EINVAL` and otherwise stores the binding and marks the keymap dirty. -/
def zmk_keymap_set_layer_binding_at_idx (c : Cfg) (st : St) (l pos : Nat)
    (b : BehaviorBinding) : Int × St :=
  if l < c.keymapLayersLen ∧ pos < c.keymapLen then
    (0, { st with
          keymap := fun l2 p2 => if l2 = l ∧ p2 = pos then b else st.keymap l2 p2,
          keymapDirty := true })
  else (-EINVAL, st)

/-- Modelled from the spec: PhysicalLayoutStore `select` — on success the
selection changes; on failure nothing does. -/
def zmk_physical_layouts_select (env : Env) (index : Nat) (st : St) : Int × St :=
  if env.selectOk index then (0, { st with selectedLayout := index })
  else (-EINVAL, st)

/-- Modelled from the spec: PhysicalLayoutStore `saveSelected` — on success the
persisted selection becomes the current one. -/
def zmk_physical_layouts_save_selected (env : Env) (st : St) : Int × St :=
  if env.saveLayoutOk then (0, { st with savedLayout := st.selectedLayout })
  else (-EIOFAIL, st)

/-- Modelled from the spec: KeymapStore `saveChanges` — on success pending
keymap changes are persisted and the keymap dirty state clears. -/
def zmk_keymap_save_changes (env : Env) (st : St) : Int × St :=
  if env.saveKeymapOk then (0, { st with keymapDirty := false })
  else (-EIOFAIL, st)

/-- Modelled from the spec: PhysicalLayoutStore `checkUnsavedSelection` —
positive iff the current selection differs from the persisted one. -/
def zmk_physical_layouts_check_unsaved_selection (st : St) : Int :=
  if st.selectedLayout ≠ st.savedLayout then 1 else 0

/-- Modelled from the spec: KeymapStore `checkUnsavedChanges`. -/
def zmk_keymap_check_unsaved_changes (st : St) : Int :=
  if st.keymapDirty then 1 else 0

/-- The process-wide dirty flag as `check_unsaved_changes`
(keymap_subsystem.c:144) computes it: layout changes OR keymap changes. -/
def dirtyFlag (st : St) : Bool :=
  decide (zmk_physical_layouts_check_unsaved_selection st > 0 ∨
          zmk_keymap_check_unsaved_changes st > 0)

/-- Embeds `struct zmk_keymap_SetLayerBindingRequest`. -/
structure SetLayerBindingRequest where
  behavior_id : Nat
  layer : Nat
  key_position : Nat
  param1 : Nat
  param2 : Nat
deriving DecidableEq, Repr

/-- The response discriminants `set_layer_binding` can produce: the proto's
SUCCESS / INVALID_BEHAVIOR / INVALID_PARAMETERS / INVALID_LOCATION values plus
the subsystem-generic simple error (`ZMK_RPC_SIMPLE_ERR(GENERIC)`). -/
inductive SetLayerBindingResponse where
  | success
  | invalid_behavior
  | invalid_parameters
  | invalid_location
  | generic_err
deriving DecidableEq, Repr

/-- Embeds `set_layer_binding` (keymap_subsystem.c:100): resolve the local id,
validate the binding, write it to the keymap store, and on success raise the
dirty notification. -/
def set_layer_binding (env : Env) (st : St) (req : SetLayerBindingRequest) :
    SetLayerBindingResponse × St :=
  match zmk_behavior_find_behavior_name_from_local_id env.items req.behavior_id with
  | none => (.invalid_behavior, st)
  | some behavior_name =>
    let binding : BehaviorBinding := ⟨behavior_name, req.param1, req.param2⟩
    let ret := zmk_behavior_validate_binding env.cfg env.reg binding
    if ret < 0 then (.invalid_parameters, st)
    else
      let wret := zmk_keymap_set_layer_binding_at_idx env.cfg st req.layer req.key_position binding
      if wret.1 < 0 then
        if wret.1 = -EINVAL then (.invalid_location, wret.2)
        else (.generic_err, wret.2)
      else
        (.success, { wret.2 with notifs := wret.2.notifs ++ [true] })

/-- The response discriminants of `save_changes`: the boolean success payload
or `ZMK_RPC_SIMPLE_ERR(GENERIC)`. -/
inductive SaveChangesResponse where
  | ok
  | generic_err
deriving DecidableEq, Repr

/-- Embeds `save_changes` (keymap_subsystem.c:152): persist the selected
layout, then the keymap; only when both succeed raise the "not dirty"
notification. -/
def save_changes (env : Env) (st : St) : SaveChangesResponse × St :=
  let r1 := zmk_physical_layouts_save_selected env st
  if r1.1 < 0 then (.generic_err, r1.2)
  else
    let r2 := zmk_keymap_save_changes env r1.2
    if r2.1 < 0 then (.generic_err, r2.2)
    else (.ok, { r2.2 with notifs := r2.2.notifs ++ [false] })

/-- The sentinel entry of a position map: UINT32_MAX, "no corresponding old
position". -/
def UINT32_MAX : Nat := 4294967295

/-- The cell computation of `migrate_keymap`'s first inner loop
(keymap_subsystem.c:282-299): sentinel or missing old binding gives the
zeroed binding, otherwise the old binding is copied. -/
def migrate_cell (c : Cfg) (st : St) (l old_b : Nat) : BehaviorBinding :=
  if old_b = UINT32_MAX then zeroBinding
  else
    match zmk_keymap_get_layer_binding_at_idx c st l old_b with
    | none => zeroBinding
    | some b => b

/-- The write-back loop of `migrate_keymap` (keymap_subsystem.c:301-303):
store `new_layer[0..b-1]` into layer `l` of the keymap store. -/
def write_layer_upto (c : Cfg) (st : St) (l : Nat) (new_layer : List BehaviorBinding) :
    Nat → St
  | 0 => st
  | b + 1 =>
    (zmk_keymap_set_layer_binding_at_idx c (write_layer_upto c st l new_layer b) l b
      (new_layer.getD b zeroBinding)).2

/-- The outer layer loop of `migrate_keymap` (keymap_subsystem.c:279): process
layers `0..n-1` in order; for each, build the full `new_layer` array from the
current store contents and only then write it back. -/
def migrate_layers (c : Cfg) (map : List Nat) : Nat → St → St
  | 0, st => st
  | n + 1, st =>
    let acc := migrate_layers c map n st
    let new_layer := map.map (fun old_b => migrate_cell c acc n old_b)
    write_layer_upto c acc n new_layer map.length

/-- Embeds `migrate_keymap` (keymap_subsystem.c:269): fetch the position map
from the old layout to the currently selected one; a failed fetch migrates
nothing. The map's length is `layout_size`, the new layout's key count. -/
def migrate_keymap (env : Env) (st : St) (old : Nat) : St :=
  match env.posMap old st.selectedLayout with
  | none => st
  | some map => migrate_layers env.cfg map env.cfg.keymapLayersLen st

/-- The result discriminant of `set_active_physical_layout`'s structured
response: the `ok` tag (carrying the lazily encoded keymap) or the `err` tag
with the GENERIC error code. -/
inductive SetActivePhysicalLayoutResponse where
  | ok
  | err_generic
deriving DecidableEq, Repr

/-- Embeds `set_active_physical_layout` (keymap_subsystem.c:309): equal index
returns the ok response untouched; otherwise select, migrate on success or
switch the response to the structured GENERIC error, and in either of those
two branches raise the dirty notification before returning. -/
def set_active_physical_layout (env : Env) (st : St) (index : Nat) :
    SetActivePhysicalLayoutResponse × St :=
  let old := st.selectedLayout
  if old = index then (.ok, st)
  else
    let r := zmk_physical_layouts_select env index st
    if r.1 ≥ 0 then
      let st2 := migrate_keymap env r.2 old
      (.ok, { st2 with notifs := st2.notifs ++ [true] })
    else
      (.err_generic, { r.2 with notifs := r.2.notifs ++ [true] })

/-! Concrete instances used by closed theorems. -/

/-- Modelled from the spec: a representative build configuration. The HID
constants carry their standard values (NKRO maximum usage 0x67 =
HID_USAGE_KEY_KEYPAD_EQUAL, LEFT_CONTROL = 0xE0, RIGHT_GUI = 0xE7) under the
basic consumer-report configuration; 40 key positions, 4 layers. -/
def stdCfg : Cfg := ⟨40, 4, 0x67, 0xE0, 0xE7, true⟩

/-- A build configuration whose key-position count (6) differs from its layer
count (4), separating ZMK_KEYMAP_LEN from ZMK_KEYMAP_LAYERS_LEN. -/
def c2cfg : Cfg := ⟨6, 4, 0x67, 0xE0, 0xE7, true⟩

/-- A single LayerIndex parameter-value spec. -/
def liSpec : ParamValueMeta := ⟨.layer_index, 0, 0, 0⟩

/-- A registry with no ready device and empty metadata. -/
def reg0 : Registry := ⟨fun _ => false, fun _ => (0, ⟨[]⟩)⟩

/-- The keymap whose every cell is the zero binding. -/
def kmZero : Keymap := fun _ _ => zeroBinding

/-- A clean state on layout 0. -/
def st8 : St := ⟨kmZero, false, 0, 0, []⟩

/-- An environment with an empty identity table. -/
def env8 : Env := ⟨stdCfg, [], reg0, fun _ => true, true, true, fun _ _ => none⟩

/-- A request naming local id 7. -/
def req8 : SetLayerBindingRequest := ⟨7, 0, 0, 0, 0⟩

/-- An environment whose identity table maps id 7 to "kp" while the registry
finds no such device. -/
def env10 : Env := ⟨stdCfg, [⟨"kp", true, 7⟩], reg0, fun _ => true, true, true, fun _ _ => none⟩

/-- An environment whose layout persistence succeeds but whose keymap
persistence fails. -/
def env5 : Env := ⟨stdCfg, [], reg0, fun _ => true, true, false, fun _ _ => none⟩

/-- A dirty state: unsaved keymap changes and an unsaved layout selection. -/
def st5 : St := ⟨kmZero, true, 1, 0, []⟩

/-- An environment in which selecting any physical layout fails. -/
def envC4 : Env := ⟨stdCfg, [], reg0, fun _ => false, true, true, fun _ _ => none⟩

/-- A clean state on layout 0 with no notifications raised yet. -/
def stC4 : St := ⟨kmZero, false, 0, 0, []⟩

/-- Three registered behaviors, all ready, none carrying a persisted id. -/
def itemsW : List LocalIdItem := [⟨"kp", true, 0⟩, ⟨"mt", true, 0⟩, ⟨"lt", true, 0⟩]

/-- A 6-key, 2-layer configuration for the migration example. -/
def cfg6 : Cfg := ⟨6, 2, 0x67, 0xE0, 0xE7, true⟩

/-- Binding A of the migration example. -/
def bA : BehaviorBinding := ⟨"a", 1, 0⟩

/-- Binding B of the migration example. -/
def bB : BehaviorBinding := ⟨"b", 2, 0⟩

/-- Binding C of the migration example. -/
def bC : BehaviorBinding := ⟨"c", 3, 0⟩

/-- Binding D of the migration example. -/
def bD : BehaviorBinding := ⟨"d", 4, 0⟩

/-- A keymap whose layer 0 starts with the old-layer bindings [A, B, C, D]. -/
def km6 : Keymap := fun l p =>
  if l = 0 then
    if p = 0 then bA else if p = 1 then bB else if p = 2 then bC
    else if p = 3 then bD else zeroBinding
  else zeroBinding

/-- The position map of the migration example: new length 6, entries
[2, 3, SENTINEL, SENTINEL, 0, 1]. -/
def mapW : List Nat := [2, 3, UINT32_MAX, UINT32_MAX, 0, 1]

/-- An environment whose layout-geometry collaborator maps old layout 0 to new
layout 1 through `mapW`. -/
def env6 : Env := ⟨cfg6, [], reg0, fun _ => true, true, true,
  fun o n => if o = 0 ∧ n = 1 then some mapW else none⟩

/-- A state on (already selected) layout 1 holding `km6`. -/
def st6 : St := ⟨km6, false, 1, 0, []⟩

/-! Helper lemmas. -/

theorem param_values_loop_cases (c : Cfg) (param : Nat) :
    ∀ values, param_values_loop c param values = 0 ∨
      param_values_loop c param values = -ENOTSUP := by
  intro values
  induction values with
  | nil => exact Or.inr rfl
  | cons m rest ih =>
    by_cases h : param_value_match c m param = true
    · exact Or.inl (by simp [param_values_loop, h])
    · simpa [param_values_loop, h] using ih

theorem validate_param_values_nonneg_iff (c : Cfg) (values : List ParamValueMeta)
    (param : Nat) :
    zmk_behavior_validate_param_values c values param ≥ 0 ↔
      zmk_behavior_validate_param_values c values param = 0 := by
  unfold zmk_behavior_validate_param_values
  by_cases h : values.length = 0
  · simp [h, ENODEV]
  · rcases param_values_loop_cases c param values with h0 | h0 <;>
      simp [h, h0, ENOTSUP]

theorem commit_all_zero_getD :
    ∀ (items : List LocalIdItem) (largest : Nat), (∀ it ∈ items, it.local_id = 0) →
    ∀ i, i < items.length →
      (behavior_handle_commit largest items).2.getD i dItem =
        { items.getD i dItem with local_id := largest + i + 1 } := by
  intro items
  induction items with
  | nil => intro largest _ i hi; simp at hi
  | cons it rest ih =>
    intro largest hz i hi
    have hz0 : it.local_id = 0 := hz it (List.mem_cons_self it rest)
    have hzr : ∀ x ∈ rest, x.local_id = 0 := fun x hx => hz x (List.mem_cons_of_mem it hx)
    unfold behavior_handle_commit
    rw [if_neg (by simp [hz0])]
    cases i with
    | zero => simp
    | succ j =>
      simp only [List.getD_cons_succ]
      have hj : j < rest.length := by
        simp only [List.length_cons] at hi
        omega
      have hrec := ih (largest + 1) hzr j hj
      rw [show largest + (j + 1) + 1 = largest + 1 + j + 1 from by omega]
      exact hrec

theorem find_commit_all_zero :
    ∀ (items : List LocalIdItem) (largest : Nat), (∀ it ∈ items, it.local_id = 0) →
    ∀ i, i < items.length → (items.getD i dItem).ready = true →
      zmk_behavior_find_behavior_name_from_local_id
          (behavior_handle_commit largest items).2 (largest + i + 1) =
        some ((items.getD i dItem).name) := by
  intro items
  induction items with
  | nil => intro largest _ i hi; simp at hi
  | cons it rest ih =>
    intro largest hz i hi hready
    have hz0 : it.local_id = 0 := hz it (List.mem_cons_self it rest)
    have hzr : ∀ x ∈ rest, x.local_id = 0 := fun x hx => hz x (List.mem_cons_of_mem it hx)
    unfold behavior_handle_commit
    rw [if_neg (by simp [hz0])]
    cases i with
    | zero =>
      simp only [List.getD_cons_zero] at hready ⊢
      unfold zmk_behavior_find_behavior_name_from_local_id
      rw [if_pos ⟨hready, by simp⟩]
    | succ j =>
      simp only [List.getD_cons_succ] at hready ⊢
      have hj : j < rest.length := by
        simp only [List.length_cons] at hi
        omega
      unfold zmk_behavior_find_behavior_name_from_local_id
      rw [if_neg (by
        intro hc
        have h2 := hc.2
        simp only [] at h2
        omega)]
      have hrec := ih (largest + 1) hzr j hj hready
      rw [show largest + (j + 1) + 1 = largest + 1 + j + 1 from by omega]
      exact hrec

theorem set_keymap_other (c : Cfg) (st : St) (l pos : Nat) (b : BehaviorBinding)
    (l2 p2 : Nat) (h : l2 ≠ l ∨ p2 ≠ pos) :
    ((zmk_keymap_set_layer_binding_at_idx c st l pos b).2).keymap l2 p2 =
      st.keymap l2 p2 := by
  unfold zmk_keymap_set_layer_binding_at_idx
  by_cases hin : l < c.keymapLayersLen ∧ pos < c.keymapLen
  · rw [if_pos hin]
    simp only []
    rw [if_neg (by tauto)]
  · rw [if_neg hin]

theorem set_keymap_at (c : Cfg) (st : St) (l pos : Nat) (b : BehaviorBinding)
    (hl : l < c.keymapLayersLen) (hp : pos < c.keymapLen) :
    ((zmk_keymap_set_layer_binding_at_idx c st l pos b).2).keymap l pos = b := by
  unfold zmk_keymap_set_layer_binding_at_idx
  rw [if_pos ⟨hl, hp⟩]
  simp

theorem write_layer_upto_other (c : Cfg) (st : St) (l : Nat) (nl : List BehaviorBinding) :
    ∀ (b l2 p2 : Nat), (l2 ≠ l ∨ b ≤ p2) →
      (write_layer_upto c st l nl b).keymap l2 p2 = st.keymap l2 p2 := by
  intro b
  induction b with
  | zero => intro l2 p2 _; rfl
  | succ k ih =>
    intro l2 p2 h
    unfold write_layer_upto
    rw [set_keymap_other c _ l k _ l2 p2 (h.imp id (fun hb => by omega))]
    exact ih l2 p2 (h.imp id (fun hb => by omega))

theorem write_layer_upto_at (c : Cfg) (st : St) (l : Nat) (nl : List BehaviorBinding)
    (hl : l < c.keymapLayersLen) :
    ∀ (b p : Nat), p < b → p < c.keymapLen →
      (write_layer_upto c st l nl b).keymap l p = nl.getD p zeroBinding := by
  intro b
  induction b with
  | zero => intro p hp _; omega
  | succ k ih =>
    intro p hp hplen
    unfold write_layer_upto
    by_cases hpk : p = k
    · subst hpk
      exact set_keymap_at c _ l p _ hl hplen
    · rw [set_keymap_other c _ l k _ l p (Or.inr hpk)]
      exact ih p (by omega) hplen

theorem migrate_layers_other (c : Cfg) (map : List Nat) :
    ∀ (n : Nat) (st : St) (l2 p2 : Nat), (n ≤ l2 ∨ map.length ≤ p2) →
      (migrate_layers c map n st).keymap l2 p2 = st.keymap l2 p2 := by
  intro n
  induction n with
  | zero => intro st l2 p2 _; rfl
  | succ k ih =>
    intro st l2 p2 h
    unfold migrate_layers
    rw [write_layer_upto_other c _ k _ map.length l2 p2
      (h.imp (fun hl => by omega) id)]
    exact ih st l2 p2 (h.imp (fun hl => by omega) id)

theorem migrate_cell_congr (c : Cfg) (st1 st2 : St) (l : Nat)
    (h : ∀ p, st1.keymap l p = st2.keymap l p) (ob : Nat) :
    migrate_cell c st1 l ob = migrate_cell c st2 l ob := by
  unfold migrate_cell zmk_keymap_get_layer_binding_at_idx
  by_cases hs : ob = UINT32_MAX
  · simp [hs]
  · simp only [hs, if_false]
    by_cases hin : l < c.keymapLayersLen ∧ ob < c.keymapLen
    · simp [hin, h ob]
    · simp [hin]

theorem migrate_layers_at (c : Cfg) (map : List Nat) (hlen : map.length ≤ c.keymapLen) :
    ∀ (n : Nat) (st : St) (l p : Nat), l < n → n ≤ c.keymapLayersLen → p < map.length →
      (migrate_layers c map n st).keymap l p = migrate_cell c st l (map.getD p 0) := by
  intro n
  induction n with
  | zero => intro st l p h _ _; omega
  | succ k ih =>
    intro st l p hl hn hp
    unfold migrate_layers
    by_cases hlk : l = k
    · subst hlk
      rw [write_layer_upto_at c _ l _ (by omega) map.length p hp (by omega)]
      rw [List.getD_eq_getElem _ _ (by simpa using hp)]
      rw [List.getElem_map]
      rw [List.getD_eq_getElem _ _ hp]
      exact migrate_cell_congr c _ st l
        (fun q => migrate_layers_other c map l st l q (Or.inl le_rfl)) _
    · rw [write_layer_upto_other c _ k _ map.length l p (Or.inl hlk)]
      exact ih st l p (by omega) (by omega) hp

/-! Claim theorems. -/

/-- C1: the code diverges from the spec's HID-usage rule. On the Key page the
source's second invalidity clause, `usage_id > NKRO_MAX && usage_id < LEFT_CONTROL
&& usage_id > RIGHT_GUI`, is unsatisfiable (the last conjunct should have been a
disjunct), so the code accepts every nonzero Key usage id — here 0x68, which
exceeds the NKRO maximum 0x67 and lies outside the modifier range 0xE0..0xE7 and
is therefore invalid per the spec's rule. The Consumer-page and final conjuncts
show the agreement elsewhere and the dead code in general. -/
theorem hid_usage_key_modifier_dead_code :
    validate_hid_usage stdCfg HID_USAGE_KEY 0x68 = 0 ∧
    spec_hid_usage_ok stdCfg HID_USAGE_KEY 0x68 = false ∧
    validate_hid_usage stdCfg HID_USAGE_CONSUMER 0xFF = 0 ∧
    validate_hid_usage stdCfg HID_USAGE_CONSUMER 0x100 = -EINVAL ∧
    (∀ id : Nat, validate_hid_usage stdCfg HID_USAGE_KEY id = 0 ↔ id ≠ 0) := by
  refine ⟨by decide, by decide, by decide, by decide, ?_⟩
  intro id
  have hns : ¬(id > stdCfg.nkroMax ∧ id < stdCfg.leftControl ∧ id > stdCfg.rightGui) := by
    simp only [stdCfg]
    omega
  by_cases h : id = 0
  · subst h; decide
  · simp [validate_hid_usage, HID_USAGE_KEY, HID_USAGE_CONSUMER, h, hns, EINVAL]

/-- C2: the code diverges from the claim's LayerIndex rule. With 6 key
positions (ZMK_KEYMAP_LEN) and 4 layers (ZMK_KEYMAP_LAYERS_LEN), the code
accepts candidate value 5 for a LayerIndex spec because it compares against the
key-position count, although 5 is not a valid layer index. -/
theorem layer_index_checked_against_key_count :
    zmk_behavior_validate_param_values c2cfg [liSpec] 5 = 0 ∧
    ¬(5 < c2cfg.keymapLayersLen) ∧ 5 < c2cfg.keymapLen := by
  refine ⟨by decide, by decide, by decide⟩

/-- C3: characterization of `zmk_behavior_validate_params_metadata`. An empty
spec list yields NoSpecsDeclared (`-ENODEV`). Absent metadata or zero sets:
success iff both params are 0, else a negative (invalid) result. Otherwise
success iff some set has both parameters pass, a parameter passing iff its
value validation returns Match (0) or NoSpecsDeclared (`-ENODEV`) with the
value 0; when no set passes the result is `-EINVAL`. -/
theorem validate_params_metadata_characterization (c : Cfg)
    (md : Option ParameterMetadata) (p1 p2 : Nat) :
    (zmk_behavior_validate_param_values c [] p1 = -ENODEV) ∧
    ((md = none ∨ md = some ⟨[]⟩) →
      ((zmk_behavior_validate_params_metadata c md p1 p2 = 0 ↔ p1 = 0 ∧ p2 = 0) ∧
       (¬(p1 = 0 ∧ p2 = 0) → zmk_behavior_validate_params_metadata c md p1 p2 = -ENODEV))) ∧
    (∀ m : ParameterMetadata, md = some m → m.sets ≠ [] →
      ((zmk_behavior_validate_params_metadata c md p1 p2 = 0 ↔
        ∃ s ∈ m.sets,
          (zmk_behavior_validate_param_values c s.param1_values p1 = 0 ∨
            (zmk_behavior_validate_param_values c s.param1_values p1 = -ENODEV ∧ p1 = 0)) ∧
          (zmk_behavior_validate_param_values c s.param2_values p2 = 0 ∨
            (zmk_behavior_validate_param_values c s.param2_values p2 = -ENODEV ∧ p2 = 0))) ∧
       (zmk_behavior_validate_params_metadata c md p1 p2 ≠ 0 →
        zmk_behavior_validate_params_metadata c md p1 p2 = -EINVAL))) := by
  have hpass : ∀ s : MetadataSet, metadata_set_passes c s p1 p2 = true ↔
      ((zmk_behavior_validate_param_values c s.param1_values p1 = 0 ∨
        (zmk_behavior_validate_param_values c s.param1_values p1 = -ENODEV ∧ p1 = 0)) ∧
       (zmk_behavior_validate_param_values c s.param2_values p2 = 0 ∨
        (zmk_behavior_validate_param_values c s.param2_values p2 = -ENODEV ∧ p2 = 0))) := by
    intro s
    simp only [metadata_set_passes, decide_eq_true_eq]
    rw [validate_param_values_nonneg_iff, validate_param_values_nonneg_iff]
  refine ⟨by simp [zmk_behavior_validate_param_values], ?_, ?_⟩
  · rintro (rfl | rfl) <;>
      exact ⟨by by_cases hp : p1 = 0 ∧ p2 = 0 <;>
               simp [zmk_behavior_validate_params_metadata, hp, ENODEV],
             fun hp => by simp [zmk_behavior_validate_params_metadata, hp, ENODEV]⟩
  · rintro m rfl hne
    have hlen : ¬(m.sets.length = 0) := by
      simpa [List.length_eq_zero] using hne
    by_cases hany : m.sets.any (fun s => metadata_set_passes c s p1 p2) = true
    · refine ⟨?_, ?_⟩
      · simp only [zmk_behavior_validate_params_metadata, hlen, if_false, hany, if_true]
        simp only [true_iff, eq_self_iff_true]
        simp only [List.any_eq_true] at hany
        obtain ⟨s, hs, hp⟩ := hany
        exact ⟨s, hs, (hpass s).mp hp⟩
      · intro hne0
        exfalso
        apply hne0
        simp [zmk_behavior_validate_params_metadata, hlen, hany]
    · refine ⟨?_, ?_⟩
      · simp only [zmk_behavior_validate_params_metadata, hlen, if_false, hany]
        constructor
        · intro h
          exfalso
          simp only [Bool.not_eq_true] at hany
          simp [hany, EINVAL] at h
        · rintro ⟨s, hs, hp⟩
          exfalso
          apply hany
          simp only [List.any_eq_true]
          exact ⟨s, hs, (hpass s).mpr hp⟩
      · intro _
        simp [zmk_behavior_validate_params_metadata, hlen, hany]

/-- Witness for C3: with no metadata, params (0, 0) succeed and (5, 0) fail
with `-ENODEV`; the empty spec list yields `-ENODEV` for value 7. -/
theorem validate_params_metadata_characterization_inst :
    zmk_behavior_validate_params_metadata stdCfg none 0 0 = 0 ∧
    zmk_behavior_validate_params_metadata stdCfg none 5 0 = -ENODEV ∧
    zmk_behavior_validate_param_values stdCfg [] 7 = -ENODEV :=
  ⟨((validate_params_metadata_characterization stdCfg none 0 0).2.1 (Or.inl rfl)).1.mpr
      ⟨rfl, rfl⟩,
   ((validate_params_metadata_characterization stdCfg none 5 0).2.1 (Or.inl rfl)).2
      (by decide),
   (validate_params_metadata_characterization stdCfg none 7 0).1⟩

/-- C4 counterexample: with selection of layout 1 failing, the response is the
structured GENERIC error, yet the dirty notification (payload true) is still
raised — refuting that the notification occurs only in the successful
selection-change case. The dirty flag itself is unaffected. -/
theorem set_active_layout_failure_still_notifies :
    (set_active_physical_layout envC4 stC4 1).1 = .err_generic ∧
    (set_active_physical_layout envC4 stC4 1).2.notifs = [true] ∧
    stC4.notifs = [] ∧
    dirtyFlag (set_active_physical_layout envC4 stC4 1).2 = dirtyFlag stC4 := by
  refine ⟨by decide, by decide, by decide, by decide⟩

/-- C4 (amended): when the requested index equals the current selection,
`set_active_physical_layout` is a no-op success response — no migration, no
state change, no notification. When selection fails, the structured error
result is returned and only the notification list changes (the dirty flag and
keymap are untouched), the dirty notification being raised even in this
failure case. -/
theorem set_active_layout_noop_and_failure (env : Env) (st : St) (index : Nat) :
    (st.selectedLayout = index → set_active_physical_layout env st index = (.ok, st)) ∧
    (st.selectedLayout ≠ index → env.selectOk index = false →
      set_active_physical_layout env st index =
        (.err_generic, { st with notifs := st.notifs ++ [true] })) := by
  constructor
  · intro h
    simp [set_active_physical_layout, h]
  · intro h hsel
    simp [set_active_physical_layout, h, zmk_physical_layouts_select, hsel, EINVAL]

/-- Witness for C4's amended theorem: requesting the already selected layout 0
is a no-op; requesting layout 1 with selection failing yields the structured
error and only appends the notification. -/
theorem set_active_layout_noop_and_failure_inst :
    set_active_physical_layout envC4 stC4 0 = (.ok, stC4) ∧
    set_active_physical_layout envC4 stC4 1 =
      (.err_generic, { stC4 with notifs := stC4.notifs ++ [true] }) :=
  ⟨(set_active_layout_noop_and_failure envC4 stC4 0).1 rfl,
   (set_active_layout_noop_and_failure envC4 stC4 1).2 (by decide) rfl⟩

/-- C5: `save_changes` persists the layout first — if that fails the state is
exactly unchanged and the generic error returned. If the layout persists but
the keymap persist fails (with unsaved keymap changes pending), the result is
the generic error, the dirty flag stays true (unchanged), and no notification
is emitted. Only when both steps succeed does the flag clear and the
"not dirty" notification fire. -/
theorem save_changes_failure_and_success (env : Env) (st : St) :
    (env.saveLayoutOk = false → save_changes env st = (.generic_err, st)) ∧
    (env.saveLayoutOk = true → env.saveKeymapOk = false → st.keymapDirty = true →
      (save_changes env st).1 = .generic_err ∧
      dirtyFlag st = true ∧
      dirtyFlag (save_changes env st).2 = true ∧
      (save_changes env st).2.notifs = st.notifs ∧
      (save_changes env st).2.keymapDirty = st.keymapDirty) ∧
    (env.saveLayoutOk = true → env.saveKeymapOk = true →
      (save_changes env st).1 = .ok ∧
      dirtyFlag (save_changes env st).2 = false ∧
      (save_changes env st).2.notifs = st.notifs ++ [false]) := by
  refine ⟨?_, ?_, ?_⟩
  · intro h
    simp [save_changes, zmk_physical_layouts_save_selected, h, EIOFAIL]
  · intro h1 h2 h3
    simp [save_changes, zmk_physical_layouts_save_selected, zmk_keymap_save_changes,
      h1, h2, h3, EIOFAIL, dirtyFlag, zmk_physical_layouts_check_unsaved_selection,
      zmk_keymap_check_unsaved_changes]
  · intro h1 h2
    simp [save_changes, zmk_physical_layouts_save_selected, zmk_keymap_save_changes,
      h1, h2, EIOFAIL, dirtyFlag, zmk_physical_layouts_check_unsaved_selection,
      zmk_keymap_check_unsaved_changes]

/-- Witness for C5: layout persistence succeeds, keymap persistence fails, on
a dirty state — generic error, flag still true, no notification. -/
theorem save_changes_failure_and_success_inst :
    (save_changes env5 st5).1 = .generic_err ∧
    dirtyFlag st5 = true ∧
    dirtyFlag (save_changes env5 st5).2 = true ∧
    (save_changes env5 st5).2.notifs = st5.notifs ∧
    (save_changes env5 st5).2.keymapDirty = st5.keymapDirty :=
  (save_changes_failure_and_success env5 st5).2.1 rfl rfl rfl

/-- C6: layout migration fills every new position below the position map's
length (the new layout's key count) with `migrate_cell` computed against the
pre-migration keymap: the old binding when the mapped old position is not the
sentinel and a binding exists there, the zero binding otherwise. The full new
layer array is built from the old state before any write-back. -/
theorem migrate_keymap_cell_spec (env : Env) (st : St) (old : Nat) (map : List Nat)
    (l p : Nat) (hm : env.posMap old st.selectedLayout = some map)
    (hlen : map.length ≤ env.cfg.keymapLen)
    (hl : l < env.cfg.keymapLayersLen) (hp : p < map.length) :
    (migrate_keymap env st old).keymap l p = migrate_cell env.cfg st l (map.getD p 0) := by
  unfold migrate_keymap
  rw [hm]
  exact migrate_layers_at env.cfg map hlen env.cfg.keymapLayersLen st l p hl le_rfl hp

/-- Witness for C6, the spec's migration example: old layer [A, B, C, D] under
position map [2, 3, SENTINEL, SENTINEL, 0, 1] (new length 6) becomes
[C, D, zero, zero, A, B]. -/
theorem migrate_keymap_cell_spec_inst :
    (migrate_keymap env6 st6 0).keymap 0 0 = bC ∧
    (migrate_keymap env6 st6 0).keymap 0 1 = bD ∧
    (migrate_keymap env6 st6 0).keymap 0 2 = zeroBinding ∧
    (migrate_keymap env6 st6 0).keymap 0 3 = zeroBinding ∧
    (migrate_keymap env6 st6 0).keymap 0 4 = bA ∧
    (migrate_keymap env6 st6 0).keymap 0 5 = bB :=
  ⟨(migrate_keymap_cell_spec env6 st6 0 mapW 0 0 rfl (by decide) (by decide)
      (by decide)).trans (by decide),
   (migrate_keymap_cell_spec env6 st6 0 mapW 0 1 rfl (by decide) (by decide)
      (by decide)).trans (by decide),
   (migrate_keymap_cell_spec env6 st6 0 mapW 0 2 rfl (by decide) (by decide)
      (by decide)).trans (by decide),
   (migrate_keymap_cell_spec env6 st6 0 mapW 0 3 rfl (by decide) (by decide)
      (by decide)).trans (by decide),
   (migrate_keymap_cell_spec env6 st6 0 mapW 0 4 rfl (by decide) (by decide)
      (by decide)).trans (by decide),
   (migrate_keymap_cell_spec env6 st6 0 mapW 0 5 rfl (by decide) (by decide)
      (by decide)).trans (by decide)⟩

/-- C7: under the persistent-counter strategy with nothing previously
persisted (all local ids 0, counter 0) and all devices ready, commit assigns
ids 1..N in registration order, and looking each assigned id up again returns
that behavior's name. -/
theorem behavior_commit_fresh_ids (items : List LocalIdItem)
    (hz : ∀ it ∈ items, it.local_id = 0)
    (hr : ∀ it ∈ items, it.ready = true) :
    ∀ i, i < items.length →
      ((behavior_handle_commit 0 items).2.getD i dItem).local_id = i + 1 ∧
      zmk_behavior_find_behavior_name_from_local_id
          (behavior_handle_commit 0 items).2 (i + 1) =
        some ((items.getD i dItem).name) := by
  intro i hi
  have hready : (items.getD i dItem).ready = true := by
    rw [List.getD_eq_getElem _ _ hi]
    exact hr _ (List.getElem_mem hi)
  constructor
  · rw [commit_all_zero_getD items 0 hz i hi]
    simp
  · have hrec := find_commit_all_zero items 0 hz i hi hready
    simpa using hrec

/-- Witness for C7: committing three fresh behaviors gives the second id 2,
and id 2 resolves back to its name. -/
theorem behavior_commit_fresh_ids_inst :
    ((behavior_handle_commit 0 itemsW).2.getD 1 dItem).local_id = 1 + 1 ∧
    zmk_behavior_find_behavior_name_from_local_id
        (behavior_handle_commit 0 itemsW).2 (1 + 1) =
      some ((itemsW.getD 1 dItem).name) :=
  behavior_commit_fresh_ids itemsW (by decide) (by decide) 1 (by decide)

/-- C8: `set_layer_binding` with a local id absent from the identity table
returns INVALID_BEHAVIOR and leaves the state — keymap, dirty flag,
notifications — exactly unchanged. -/
theorem set_layer_binding_unknown_id (env : Env) (st : St) (req : SetLayerBindingRequest)
    (h : zmk_behavior_find_behavior_name_from_local_id env.items req.behavior_id = none) :
    set_layer_binding env st req = (.invalid_behavior, st) := by
  unfold set_layer_binding
  rw [h]

/-- Witness for C8: an empty identity table cannot resolve id 7. -/
theorem set_layer_binding_unknown_id_inst :
    set_layer_binding env8 st8 req8 = (.invalid_behavior, st8) :=
  set_layer_binding_unknown_id env8 st8 req8 rfl

/-- C9: migration writes only below the new layout's key count — every keymap
cell at a position at or beyond the position map's length is left unchanged,
on every layer. -/
theorem migrate_keymap_frame (env : Env) (st : St) (old : Nat) (map : List Nat)
    (l p : Nat) (hm : env.posMap old st.selectedLayout = some map)
    (hp : map.length ≤ p) :
    (migrate_keymap env st old).keymap l p = st.keymap l p := by
  unfold migrate_keymap
  rw [hm]
  exact migrate_layers_other env.cfg map env.cfg.keymapLayersLen st l p (Or.inr hp)

/-- Witness for C9: position 7 lies beyond the new layout's 6 keys and is
untouched by the example migration. -/
theorem migrate_keymap_frame_inst :
    (migrate_keymap env6 st6 0).keymap 0 7 = st6.keymap 0 7 :=
  migrate_keymap_frame env6 st6 0 mapW 0 7 rfl (by decide)

/-- C10: whenever the binding-validation step of `set_layer_binding` fails —
for any negative result of `zmk_behavior_validate_binding` — the RPC response
is INVALID_PARAMETERS with the state unchanged; and both a failed registry
lookup (`-ENODEV`) and a failed metadata retrieval (its own negative code) are
such negative results, indistinguishable at the RPC surface from a
parameter-constraint failure. -/
theorem set_layer_binding_validation_failure_is_invalid_parameters (env : Env)
    (st : St) (req : SetLayerBindingRequest) (bname : String)
    (hname : zmk_behavior_find_behavior_name_from_local_id env.items req.behavior_id
      = some bname)
    (hval : zmk_behavior_validate_binding env.cfg env.reg
      ⟨bname, req.param1, req.param2⟩ < 0) :
    set_layer_binding env st req = (.invalid_parameters, st) ∧
    (env.reg.lookup bname = false →
      zmk_behavior_validate_binding env.cfg env.reg ⟨bname, req.param1, req.param2⟩
        = -ENODEV) ∧
    ((env.reg.getMetadata bname).1 < 0 → env.reg.lookup bname = true →
      zmk_behavior_validate_binding env.cfg env.reg ⟨bname, req.param1, req.param2⟩
        = (env.reg.getMetadata bname).1) := by
  refine ⟨?_, ?_, ?_⟩
  · unfold set_layer_binding
    rw [hname]
    simp only []
    rw [if_pos hval]
  · intro hlk
    simp [zmk_behavior_validate_binding, hlk]
  · intro hm hlk
    simp [zmk_behavior_validate_binding, hlk, hm]

/-- Witness for C10: the identity table resolves id 7 to "kp" but the registry
has no such ready device, so validation fails with `-ENODEV` and the call
answers INVALID_PARAMETERS without touching the state. -/
theorem set_layer_binding_validation_failure_is_invalid_parameters_inst :
    set_layer_binding env10 st8 req8 = (.invalid_parameters, st8) ∧
    (env10.reg.lookup "kp" = false →
      zmk_behavior_validate_binding env10.cfg env10.reg ⟨"kp", req8.param1, req8.param2⟩
        = -ENODEV) ∧
    ((env10.reg.getMetadata "kp").1 < 0 → env10.reg.lookup "kp" = true →
      zmk_behavior_validate_binding env10.cfg env10.reg ⟨"kp", req8.param1, req8.param2⟩
        = (env10.reg.getMetadata "kp").1) :=
  set_layer_binding_validation_failure_is_invalid_parameters env10 st8 req8 "kp"
    rfl (by decide)

end ZMK
